import Mathlib

/-!
Verification of the particle-morph core of the `.Christmastime` repository.

The development shallowly embeds the two source components:

* `src/InteractiveTree.tsx` — `generateParticles` (particle data generation,
  weighted color assignment) and the per-frame `animateMesh` transform
  evaluation inside the `useFrame` callback;
* `src/FloatingOrnaments.tsx` — the accent (star) object's per-frame update.

`Math.random()` draws are modelled as an injected stream `rng : ℕ → ℚ`
(JavaScript doubles are rationals); each generated particle consumes 13 draws
in the source's evaluation order.  Real-valued geometry (trigonometry, powers,
square roots) is embedded over `ℝ` with the draws coerced.

The blend controller (`easing.damp` of the external `maath` package) is not
part of the repository sources; it is modelled from the specification where a
claim depends on it, with each such definition marked `Modelled from the
spec:` in its doc comment.
-/

namespace Christmastime

/-- A 3-component vector, standing in for `THREE.Vector3`. -/
@[ext]
structure Vec3 where
  x : ℝ
  y : ℝ
  z : ℝ

/-- An Euler angle triple, standing in for `THREE.Euler` (default XYZ order). -/
structure Euler where
  x : ℝ
  y : ℝ
  z : ℝ

/-- The three particle classes of `generateParticles` (`'sphere' | 'cube' | 'gem'`). -/
inductive ParticleClass where
  | sphere
  | cube
  | gem
  deriving DecidableEq, Repr

/-- The palette colors of `InteractiveTree.tsx` (`PALETTE`), as symbolic names. -/
inductive Color where
  | brightGold
  | paleGold
  | deepGold
  | white
  | morandi
  | amber
  | pink
  | brown
  deriving DecidableEq, Repr

/-- One per-particle record (`ParticleData & { color }` pushed by
`generateParticles`).  `scale` and `speed` are exact rational values since they
are affine in a single draw; geometric fields live in `ℝ`. -/
structure ParticleData where
  scatterPosition : Vec3
  scatterRotation : Euler
  treePosition : Vec3
  treeRotation : Euler
  scale : ℚ
  speed : ℚ
  color : Color

/-- The color mixing chain of `generateParticles` (`InteractiveTree.tsx`
lines 82–109): a cascade of strict comparisons of the fresh draw `rand`
against fixed cumulative bounds, one chain per particle class. -/
def pickColor (type : ParticleClass) (rand : ℚ) : Color :=
  match type with
  | .sphere =>
    if rand < 0.30 then .morandi
    else if rand < 0.55 then .white
    else if rand < 0.70 then .paleGold
    else if rand < 0.85 then .pink
    else if rand < 0.95 then .brown
    else .brightGold
  | .cube =>
    if rand < 0.25 then .brightGold
    else if rand < 0.45 then .deepGold
    else if rand < 0.60 then .white
    else if rand < 0.75 then .morandi
    else if rand < 0.85 then .brown
    else .paleGold
  | .gem =>
    if rand < 0.4 then .amber
    else if rand < 0.7 then .white
    else if rand < 0.85 then .brightGold
    else .pink

/-- Spec-side color assigner: scan an ordered cumulative-weight table and
return the first color whose cumulative bound exceeds the draw, falling back
to a final default color ("otherwise").  Written from the specification's
ColorAssigner contract, to be compared with `pickColor`. -/
def firstExceeding (u : ℚ) (dflt : Color) : List (Color × ℚ) → Color
  | [] => dflt
  | (c, b) :: rest => if u < b then c else firstExceeding u dflt rest

/-- Spec-side cumulative-weight tables for the three classes
(spec §4.2), the last listed color acting as the "otherwise" default. -/
def pickSpec (type : ParticleClass) (u : ℚ) : Color :=
  match type with
  | .sphere =>
      firstExceeding u .brightGold
        [(.morandi, 0.30), (.white, 0.55), (.paleGold, 0.70),
         (.pink, 0.85), (.brown, 0.95)]
  | .cube =>
      firstExceeding u .paleGold
        [(.brightGold, 0.25), (.deepGold, 0.45), (.white, 0.60),
         (.morandi, 0.75), (.brown, 0.85)]
  | .gem =>
      firstExceeding u .pink
        [(.amber, 0.40), (.white, 0.70), (.brightGold, 0.85)]

/-- Height fraction of the tree position: `Math.pow(Math.random(), 1.2)`
(`InteractiveTree.tsx` line 64). -/
noncomputable def hNormal (u : ℝ) : ℝ := u ^ (1.2 : ℝ)

/-- Vertical tree coordinate: `y = -treeHeight / 2 + hNormal * treeHeight + 1`
with `treeHeight = 13` (line 67). -/
noncomputable def treeY (u : ℝ) : ℝ := -13 / 2 + hNormal u * 13 + 1

/-- Taper radius at a given height: `(1 - hNormal) * maxBaseRadius` with
`maxBaseRadius = 5.5` (line 69). -/
noncomputable def radiusAtHeight (u : ℝ) : ℝ := (1 - hNormal u) * 5.5

/-- Pile radius: `radiusAtHeight * (0.2 + 0.8 * Math.sqrt(Math.random()))`
(line 72). -/
noncomputable def pileRadius (u u' : ℝ) : ℝ :=
  radiusAtHeight u * (0.2 + 0.8 * Real.sqrt u')

/-- The tree-state position built from three fresh draws: height draw `u`,
pile-radius draw `u'`, pile-angle draw `u''` (lines 61–79). -/
noncomputable def treePos (u u' u'' : ℝ) : Vec3 :=
  ⟨pileRadius u u' * Real.cos (u'' * Real.pi * 2),
   treeY u,
   pileRadius u u' * Real.sin (u'' * Real.pi * 2)⟩

/-- The scatter-state position: uniform-volume sample in a ball of radius 22,
`r = 22·cbrt(u₀)`, `θ = u₁·2π`, `φ = acos(2u₂-1)` (lines 50–59). -/
noncomputable def scatterPos (u₀ u₁ u₂ : ℝ) : Vec3 :=
  let r := 22 * u₀ ^ ((1 : ℝ) / 3)
  let theta := u₁ * 2 * Real.pi
  let phi := Real.arccos (2 * u₂ - 1)
  ⟨r * Real.sin phi * Real.cos theta,
   r * Real.sin phi * Real.sin theta,
   r * Real.cos phi⟩

/-- The particle built in iteration `i` of the `generateParticles` loop.  The
13 `Math.random()` calls of one iteration are draws `13*i` … `13*i+12` of the
injected stream, numbered in the source's evaluation order: scatter `r`/`θ`/`φ`
(0–2), tree height/pile radius/pile angle (3–5), color (6), scatter rotation
x/y (7–8), tree rotation x/y (9–10), scale (11), speed (12). -/
noncomputable def mkParticle (type : ParticleClass) (rng : ℕ → ℚ) (i : ℕ) :
    ParticleData :=
  let d : ℕ → ℝ := fun k => ((rng (13 * i + k) : ℚ) : ℝ)
  { scatterPosition := scatterPos (d 0) (d 1) (d 2)
    scatterRotation := ⟨d 7 * Real.pi, d 8 * Real.pi, 0⟩
    treePosition := treePos (d 3) (d 4) (d 5)
    treeRotation := ⟨d 9 * Real.pi, d 10 * Real.pi, 0⟩
    scale := 0.5 + rng (13 * i + 11) * 0.8
    speed := 0.5 + rng (13 * i + 12) * 0.5
    color := pickColor type (rng (13 * i + 6)) }

/-- `generateParticles(count, type)` (lines 42–122): the `for` loop
`for (let i = 0; i < count; i++)` pushes one record per iteration; a
non-positive `count` means the body never runs.  `count` is an integer since
the JavaScript parameter is an arbitrary `number`. -/
noncomputable def generateParticles (count : ℤ) (type : ParticleClass)
    (rng : ℕ → ℚ) : List ParticleData :=
  (List.range count.toNat).map (mkParticle type rng)

/-- The RNG stream hypothesis: every `Math.random()` draw lies in `[0, 1)`. -/
def ValidRng (rng : ℕ → ℚ) : Prop := ∀ k, 0 ≤ rng k ∧ rng k < 1

/-- `THREE.Vector3.lerpVectors(a, b, t)`: componentwise `a + (b - a) * t`. -/
def lerpVectors (a b : Vec3) (t : ℝ) : Vec3 :=
  ⟨a.x + (b.x - a.x) * t, a.y + (b.y - a.y) * t, a.z + (b.z - a.z) * t⟩

/-- `THREE.MathUtils.lerp(a, b, t) = a + (b - a) * t`. -/
def lerp (a b t : ℝ) : ℝ := a + (b - a) * t

/-- Per-particle position of `animateMesh` (`InteractiveTree.tsx` lines
153–159): the scatter→tree lerp at blend `t`, plus the drift noise
`(sin(τ·speed+i), cos(τ·speed·0.5+i)) · 0.2·(1-t)` added to x/y. -/
noncomputable def particlePosition (p : ParticleData) (i : ℕ) (τ t : ℝ) :
    Vec3 :=
  let noiseX := Real.sin (τ * (p.speed : ℝ) + i) * 0.2 * (1 - t)
  let noiseY := Real.cos (τ * (p.speed : ℝ) * 0.5 + i) * 0.2 * (1 - t)
  let base := lerpVectors p.scatterPosition p.treePosition t
  ⟨base.x + noiseX, base.y + noiseY, base.z⟩

/-- The breathing factor of `animateMesh` (line 165):
`1 + 0.1 * sin(τ·2 + i)`. -/
noncomputable def breathe (τ : ℝ) (i : ℕ) : ℝ :=
  1 + 0.1 * Real.sin (τ * 2 + i)

/-- Effective rendered scale of particle `i` (line 169):
`particle.scale * breathe`. -/
noncomputable def renderedScale (p : ParticleData) (τ : ℝ) (i : ℕ) : ℝ :=
  (p.scale : ℝ) * breathe τ i

/-- Modelled from the spec: the blend advance is the external `maath`
package's `easing.damp`, whose implementation is not among the repository
sources under `src/`.  Spec §4.3 states exponential (critically-damped)
smoothing `value' = target + (value - target) · exp(-dt / timeConstant)`. -/
noncomputable def advance (value target dt timeConstant : ℝ) : ℝ :=
  target + (value - target) * Real.exp (-dt / timeConstant)

/-- Modelled from the spec: §7(3) requires a NaN or negative frame delta-time
to be clamped to zero before use; NaN has no shallow embedding in `ℝ`, so the
raw delta is an `Option ℝ` with `none` standing for NaN. -/
noncomputable def clampDelta : Option ℝ → ℝ
  | none => 0
  | some d => max d 0

/-- Mutable state of the accent (star) object of `FloatingOrnaments.tsx`:
its y position, uniform scale and y rotation. -/
structure AccentState where
  posY : ℝ
  scale : ℝ
  rotY : ℝ

/-- One `useFrame` tick of `FloatingOrnaments.tsx` (lines 53–66), in source
order: set `position.y` to `lerp(scatterY=15, treeTopY=8.2, t)`, set the scale
to `lerp(0, 1.2, t)`, spin by `delta * 0.8`, then add the floating bob
`sin(τ·2) * 0.05` onto `position.y`. -/
noncomputable def accentFrame (s : AccentState) (t τ delta : ℝ) : AccentState :=
  let s1 := { s with posY := lerp 15 8.2 t }
  let s2 := { s1 with scale := lerp 0 1.2 t }
  let s3 := { s2 with rotY := s2.rotY + delta * 0.8 }
  { s3 with posY := s3.posY + Real.sin (τ * 2) * 0.05 }

/-- The pulse glow of the accent material (line 70):
`emissiveIntensity = 0.8 + sin(τ·2) * 0.4`. -/
noncomputable def emissiveIntensity (τ : ℝ) : ℝ :=
  0.8 + Real.sin (τ * 2) * 0.4

/-! ### Theorems for the claims -/

/-- Claim C3: for every class and every draw, the color-mixing chain of
`generateParticles` returns exactly the first color of the class's ordered
cumulative-weight table whose cumulative bound exceeds the draw (the last
table color serving as the "otherwise" default), so in particular the sphere
table yields Morandi below 0.30, White below 0.55, PaleGold below 0.70, Pink
below 0.85, Brown below 0.95 and BrightGold otherwise, with the analogous
cube and gem tables. -/
theorem color_assignment_matches_table (type : ParticleClass) (u : ℚ) :
    pickColor type u = pickSpec type u := by
  cases type <;> norm_num [pickColor, pickSpec, firstExceeding]

/-- Claim C2: at blend `t = 0` the per-frame particle position is exactly the
scatter position plus the additive drift noise, and at `t = 1` it is exactly
the tree position, the noise amplitude `0.2·(1-t)` vanishing there. -/
theorem endpoint_positions (p : ParticleData) (i : ℕ) (τ : ℝ) :
    particlePosition p i τ 0 =
      ⟨p.scatterPosition.x + Real.sin (τ * (p.speed : ℝ) + i) * 0.2,
       p.scatterPosition.y + Real.cos (τ * (p.speed : ℝ) * 0.5 + i) * 0.2,
       p.scatterPosition.z⟩ ∧
    particlePosition p i τ 1 = p.treePosition := by
  constructor <;>
    · refine Vec3.ext ?_ ?_ ?_ <;> · simp [particlePosition, lerpVectors]; try ring

/-- Claim C8: the accent object's frame update gives scale `lerp(0,1.2,t)`,
hence exactly 0 at `t = 0` and exactly 1.2 at `t = 1`, and its final y
position is `lerp(15, 8.2, t)` plus the bob `0.05·sin(τ·2)` superimposed
after the lerp. -/
theorem accent_scale_and_bob (s : AccentState) (τ delta : ℝ) :
    (accentFrame s 0 τ delta).scale = 0 ∧
    (accentFrame s 1 τ delta).scale = 1.2 ∧
    ∀ t : ℝ, (accentFrame s t τ delta).posY =
      lerp 15 8.2 t + 0.05 * Real.sin (τ * 2) := by
  refine ⟨?_, ?_, fun t => ?_⟩ <;> · simp [accentFrame, lerp]; try ring

/-- Claim C4, counterexample: a group requested with the negative count `-5`
is not rejected with an error — `generateParticles` silently returns a group
(the empty one), since the loop body never runs. -/
theorem negative_count_returns_group :
    generateParticles (-5) .sphere (fun _ => 0) = [] := rfl

/-- Claim C4, amended: for every non-positive requested count (negative or
zero) the generator yields the empty group rather than an error; no
rejection or clamping happens at construction. -/
theorem nonpositive_count_empty_group (count : ℤ) (type : ParticleClass)
    (rng : ℕ → ℚ) (h : count ≤ 0) :
    generateParticles count type rng = [] := by
  simp [generateParticles, Int.toNat_of_nonpos h]

/-- Witness for `nonpositive_count_empty_group` at count `-3`. -/
theorem nonpositive_count_empty_group_witness :
    (-3 : ℤ) ≤ 0 ∧ generateParticles (-3) .cube (fun _ => 0) = [] :=
  ⟨by norm_num,
   nonpositive_count_empty_group (-3) .cube (fun _ => 0) (by norm_num)⟩

/-- Claim C1: one damped blend advance with `dt > 0` strictly decreases the
distance to the binary target whenever the value differs from it, and keeps
the value inside `[0,1]`; this covers both controller instances (time
constants 1.2 and 1.0). -/
theorem blend_advance_contracts (value target dt T : ℝ)
    (hT : T = 1.2 ∨ T = 1.0) (hv0 : 0 ≤ value) (hv1 : value ≤ 1)
    (htgt : target = 0 ∨ target = 1) (hdt : 0 < dt) (hne : value ≠ target) :
    |advance value target dt T - target| < |value - target| ∧
    0 ≤ advance value target dt T ∧ advance value target dt T ≤ 1 := by
  have hT0 : 0 < T := by rcases hT with h | h <;> rw [h] <;> norm_num
  have he0 : 0 < Real.exp (-dt / T) := Real.exp_pos _
  have he1 : Real.exp (-dt / T) < 1 :=
    Real.exp_lt_one_iff.mpr (div_neg_of_neg_of_pos (neg_lt_zero.mpr hdt) hT0)
  refine ⟨?_, ?_, ?_⟩
  · have h1 : advance value target dt T - target =
        (value - target) * Real.exp (-dt / T) := by
      unfold advance; ring
    rw [h1, abs_mul, abs_of_pos he0]
    exact mul_lt_of_lt_one_right (abs_pos.mpr (sub_ne_zero.mpr hne)) he1
  · rcases htgt with h | h <;> subst h <;> unfold advance <;> nlinarith
  · rcases htgt with h | h <;> subst h <;> unfold advance <;> nlinarith

/-- Witness for `blend_advance_contracts` at value 0, target 1, `dt = 1`,
time constant 1.2. -/
theorem blend_advance_contracts_witness :
    (0 : ℝ) < 1 ∧ (0 : ℝ) ≠ 1 ∧
    (|advance 0 1 1 1.2 - 1| < |(0 : ℝ) - 1| ∧
     0 ≤ advance 0 1 1 1.2 ∧ advance 0 1 1 1.2 ≤ 1) :=
  ⟨one_pos, by norm_num,
   blend_advance_contracts 0 1 1 1.2 (Or.inl rfl) le_rfl zero_le_one
     (Or.inr rfl) one_pos (by norm_num)⟩

/-- Claim C5: a NaN (`none`) or negative frame delta-time is clamped to zero
before use, and an advance with the clamped delta leaves the cumulative blend
value exactly unchanged, so no non-finite or negative value propagates into
the blend state or the particle positions derived from it. -/
theorem frame_delta_clamped (dtIn : Option ℝ) (value target T : ℝ)
    (hbad : dtIn = none ∨ ∃ d, dtIn = some d ∧ d < 0) :
    clampDelta dtIn = 0 ∧ advance value target (clampDelta dtIn) T = value := by
  have h0 : clampDelta dtIn = 0 := by
    rcases hbad with h | ⟨d, hd, hdneg⟩
    · rw [h]; rfl
    · rw [hd]; unfold clampDelta; exact max_eq_right hdneg.le
  refine ⟨h0, ?_⟩
  rw [h0]; unfold advance
  simp [Real.exp_zero]

/-- Witness for `frame_delta_clamped` at a NaN delta. -/
theorem frame_delta_clamped_witness :
    clampDelta none = 0 ∧ advance 0.3 1 (clampDelta none) 1.2 = 0.3 :=
  frame_delta_clamped none 0.3 1 1.2 (Or.inl rfl)

/-- Particles produced by `generateParticles` are exactly the loop-body
particles `mkParticle type rng i`. -/
theorem mem_generateParticles {count : ℤ} {type : ParticleClass}
    {rng : ℕ → ℚ} {p : ParticleData}
    (hp : p ∈ generateParticles count type rng) :
    ∃ i, p = mkParticle type rng i := by
  unfold generateParticles at hp
  obtain ⟨i, _, rfl⟩ := List.mem_map.mp hp
  exact ⟨i, rfl⟩

/-- The scale and noise-phase-speed draws of a loop-body particle lie in
`[0.5, 1.3)` and `[0.5, 1.0)` respectively. -/
theorem mkParticle_scale_speed (type : ParticleClass) (rng : ℕ → ℚ)
    (hrng : ValidRng rng) (i : ℕ) :
    (0.5 ≤ (mkParticle type rng i).scale ∧ (mkParticle type rng i).scale ≤ 1.3) ∧
    (0.5 ≤ (mkParticle type rng i).speed ∧ (mkParticle type rng i).speed ≤ 1) := by
  obtain ⟨ha0, ha1⟩ := hrng (13 * i + 11)
  obtain ⟨hb0, hb1⟩ := hrng (13 * i + 12)
  simp only [mkParticle]
  refine ⟨⟨?_, ?_⟩, ?_, ?_⟩ <;> nlinarith

/-- Claim C7: every particle produced by the generator, for any count, class
and RNG draws in `[0,1)`, has base scale in `[0.5, 1.3]` and noise phase
speed in `[0.5, 1.0]`. -/
theorem particle_scale_speed_bounds (count : ℤ) (type : ParticleClass)
    (rng : ℕ → ℚ) (hrng : ValidRng rng) (p : ParticleData)
    (hp : p ∈ generateParticles count type rng) :
    (0.5 ≤ p.scale ∧ p.scale ≤ 1.3) ∧ (0.5 ≤ p.speed ∧ p.speed ≤ 1) := by
  obtain ⟨i, rfl⟩ := mem_generateParticles hp
  exact mkParticle_scale_speed type rng hrng i

/-- Witness for `particle_scale_speed_bounds` on a one-particle sphere
group with the all-zero draw stream. -/
theorem particle_scale_speed_bounds_witness :
    ValidRng (fun _ => 0) ∧
    ((0.5 ≤ (mkParticle .sphere (fun _ => 0) 0).scale ∧
      (mkParticle .sphere (fun _ => 0) 0).scale ≤ 1.3) ∧
     (0.5 ≤ (mkParticle .sphere (fun _ => 0) 0).speed ∧
      (mkParticle .sphere (fun _ => 0) 0).speed ≤ 1)) :=
  ⟨fun _ => by norm_num,
   particle_scale_speed_bounds 1 .sphere (fun _ => 0) (fun _ => by norm_num)
     (mkParticle .sphere (fun _ => 0) 0) (by simp [generateParticles])⟩

/-- Claim C9: the effective rendered scale of loop-body particle `i` — base
scale times the breathing factor `1 + 0.1·sin(τ·2 + i)` — lies in
`[0.45, 1.43]` and is strictly positive, for every elapsed time. -/
theorem rendered_scale_bounds (type : ParticleClass) (rng : ℕ → ℚ)
    (hrng : ValidRng rng) (τ : ℝ) (i : ℕ) :
    0.45 ≤ renderedScale (mkParticle type rng i) τ i ∧
    renderedScale (mkParticle type rng i) τ i ≤ 1.43 ∧
    0 < renderedScale (mkParticle type rng i) τ i := by
  obtain ⟨⟨hs0, hs1⟩, -⟩ := mkParticle_scale_speed type rng hrng i
  have hs0' : (0.5 : ℝ) ≤ ((mkParticle type rng i).scale : ℝ) := by
    rw [show (0.5 : ℝ) = ((0.5 : ℚ) : ℝ) by norm_num]
    exact Rat.cast_le.mpr hs0
  have hs1' : ((mkParticle type rng i).scale : ℝ) ≤ 1.3 := by
    rw [show (1.3 : ℝ) = ((1.3 : ℚ) : ℝ) by norm_num]
    exact Rat.cast_le.mpr hs1
  have hb0 : (0.9 : ℝ) ≤ breathe τ i := by
    have := Real.neg_one_le_sin (τ * 2 + i)
    unfold breathe; nlinarith
  have hb1 : breathe τ i ≤ 1.1 := by
    have := Real.sin_le_one (τ * 2 + i)
    unfold breathe; nlinarith
  unfold renderedScale
  refine ⟨?_, ?_, ?_⟩
  · nlinarith [mul_nonneg (by linarith : (0:ℝ) ≤
      ((mkParticle type rng i).scale : ℝ) - 0.5) (by linarith : (0:ℝ) ≤ breathe τ i - 0.9)]
  · nlinarith [mul_nonneg (by linarith : (0:ℝ) ≤
      1.3 - ((mkParticle type rng i).scale : ℝ)) (by linarith : (0:ℝ) ≤ 1.1 - breathe τ i)]
  · exact mul_pos (by linarith) (by linarith)

/-- Witness for `rendered_scale_bounds` on the gem class, all-zero draws,
`τ = 0`, index 0. -/
theorem rendered_scale_bounds_witness :
    ValidRng (fun _ => 0) ∧
    (0.45 ≤ renderedScale (mkParticle .gem (fun _ => 0) 0) 0 0 ∧
     renderedScale (mkParticle .gem (fun _ => 0) 0) 0 0 ≤ 1.43 ∧
     0 < renderedScale (mkParticle .gem (fun _ => 0) 0) 0 0) :=
  ⟨fun _ => by norm_num,
   rendered_scale_bounds .gem (fun _ => 0) (fun _ => by norm_num) 0 0⟩

/-- A draw in `[0,1)` scaled by π gives an angle in `[0, π)`. -/
theorem angle_mem_Ico {u : ℚ} (h0 : 0 ≤ u) (h1 : u < 1) :
    0 ≤ (u : ℝ) * Real.pi ∧ (u : ℝ) * Real.pi < Real.pi := by
  have h0' : (0 : ℝ) ≤ (u : ℝ) := by exact_mod_cast h0
  have h1' : (u : ℝ) < 1 := by exact_mod_cast h1
  constructor
  · exact mul_nonneg h0' Real.pi_pos.le
  · calc (u : ℝ) * Real.pi < 1 * Real.pi :=
        mul_lt_mul_of_pos_right h1' Real.pi_pos
    _ = Real.pi := one_mul _

/-- Claim C10: every generated particle's scatter and tree Euler rotations
have x and y angles in `[0, π)` and z angle identically 0 — a restricted
two-angle family of orientations. -/
theorem rotation_two_angle_family (count : ℤ) (type : ParticleClass)
    (rng : ℕ → ℚ) (hrng : ValidRng rng) (p : ParticleData)
    (hp : p ∈ generateParticles count type rng) :
    (0 ≤ p.scatterRotation.x ∧ p.scatterRotation.x < Real.pi) ∧
    (0 ≤ p.scatterRotation.y ∧ p.scatterRotation.y < Real.pi) ∧
    p.scatterRotation.z = 0 ∧
    (0 ≤ p.treeRotation.x ∧ p.treeRotation.x < Real.pi) ∧
    (0 ≤ p.treeRotation.y ∧ p.treeRotation.y < Real.pi) ∧
    p.treeRotation.z = 0 := by
  obtain ⟨i, rfl⟩ := mem_generateParticles hp
  obtain ⟨h7, h7'⟩ := hrng (13 * i + 7)
  obtain ⟨h8, h8'⟩ := hrng (13 * i + 8)
  obtain ⟨h9, h9'⟩ := hrng (13 * i + 9)
  obtain ⟨h10, h10'⟩ := hrng (13 * i + 10)
  simp only [mkParticle]
  refine ⟨angle_mem_Ico h7 h7', angle_mem_Ico h8 h8', ?_,
    angle_mem_Ico h9 h9', angle_mem_Ico h10 h10', ?_⟩ <;> trivial

/-- Witness for `rotation_two_angle_family` on a one-particle cube group
with the all-zero draw stream. -/
theorem rotation_two_angle_family_witness :
    ValidRng (fun _ => 0) ∧
    ((0 ≤ (mkParticle .cube (fun _ => 0) 0).scatterRotation.x ∧
      (mkParticle .cube (fun _ => 0) 0).scatterRotation.x < Real.pi) ∧
     (0 ≤ (mkParticle .cube (fun _ => 0) 0).scatterRotation.y ∧
      (mkParticle .cube (fun _ => 0) 0).scatterRotation.y < Real.pi) ∧
     (mkParticle .cube (fun _ => 0) 0).scatterRotation.z = 0 ∧
     (0 ≤ (mkParticle .cube (fun _ => 0) 0).treeRotation.x ∧
      (mkParticle .cube (fun _ => 0) 0).treeRotation.x < Real.pi) ∧
     (0 ≤ (mkParticle .cube (fun _ => 0) 0).treeRotation.y ∧
      (mkParticle .cube (fun _ => 0) 0).treeRotation.y < Real.pi) ∧
     (mkParticle .cube (fun _ => 0) 0).treeRotation.z = 0) :=
  ⟨fun _ => by norm_num,
   rotation_two_angle_family 1 .cube (fun _ => 0) (fun _ => by norm_num)
     (mkParticle .cube (fun _ => 0) 0) (by simp [generateParticles])⟩

/-- The height fraction `u^1.2` of a draw in `[0,1)` lies in `[0,1]`. -/
theorem hNormal_mem_Icc {u : ℝ} (h0 : 0 ≤ u) (h1 : u < 1) :
    0 ≤ hNormal u ∧ hNormal u ≤ 1 :=
  ⟨Real.rpow_nonneg h0 _, Real.rpow_le_one h0 h1.le (by norm_num)⟩

/-- Claim C6: for every loop-body particle, the tree-state vertical
coordinate is `-13/2 + h·13 + 1` for the biased height fraction
`h = u^1.2`, hence lies in `[-5.5, 7.5]`, and the horizontal distance from
the axis never exceeds the taper bound `(1-h)·5.5`. -/
theorem tree_position_bounds (type : ParticleClass) (rng : ℕ → ℚ) (i : ℕ)
    (hrng : ValidRng rng) :
    (mkParticle type rng i).treePosition.y =
      -13 / 2 + hNormal ((rng (13 * i + 3) : ℚ) : ℝ) * 13 + 1 ∧
    -5.5 ≤ (mkParticle type rng i).treePosition.y ∧
    (mkParticle type rng i).treePosition.y ≤ 7.5 ∧
    Real.sqrt ((mkParticle type rng i).treePosition.x ^ 2 +
        (mkParticle type rng i).treePosition.z ^ 2) ≤
      (1 - hNormal ((rng (13 * i + 3) : ℚ) : ℝ)) * 5.5 := by
  obtain ⟨hu0, hu1⟩ := hrng (13 * i + 3)
  obtain ⟨hv0, hv1⟩ := hrng (13 * i + 4)
  have hu0' : (0 : ℝ) ≤ ((rng (13 * i + 3) : ℚ) : ℝ) := by exact_mod_cast hu0
  have hu1' : ((rng (13 * i + 3) : ℚ) : ℝ) < 1 := by exact_mod_cast hu1
  have hv1' : ((rng (13 * i + 4) : ℚ) : ℝ) ≤ 1 := by exact_mod_cast hv1.le
  obtain ⟨hh0, hh1⟩ := hNormal_mem_Icc hu0' hu1'
  have hsq0 : 0 ≤ Real.sqrt ((rng (13 * i + 4) : ℚ) : ℝ) := Real.sqrt_nonneg _
  have hsq1 : Real.sqrt ((rng (13 * i + 4) : ℚ) : ℝ) ≤ 1 :=
    Real.sqrt_le_one.mpr hv1'
  have hpr0 : 0 ≤ pileRadius ((rng (13 * i + 3) : ℚ) : ℝ)
      ((rng (13 * i + 4) : ℚ) : ℝ) := by
    unfold pileRadius radiusAtHeight
    apply mul_nonneg (mul_nonneg (by linarith) (by norm_num))
    linarith
  have hpr1 : pileRadius ((rng (13 * i + 3) : ℚ) : ℝ)
      ((rng (13 * i + 4) : ℚ) : ℝ) ≤
      (1 - hNormal ((rng (13 * i + 3) : ℚ) : ℝ)) * 5.5 := by
    unfold pileRadius radiusAtHeight
    nlinarith
  refine ⟨?_, ?_, ?_, ?_⟩
  · simp only [mkParticle, treePos, treeY]
  · simp only [mkParticle, treePos, treeY]; linarith
  · simp only [mkParticle, treePos, treeY]; linarith
  · simp only [mkParticle, treePos]
    have hangle := Real.sin_sq_add_cos_sq
      (((rng (13 * i + 5) : ℚ) : ℝ) * Real.pi * 2)
    have hxz : (pileRadius ((rng (13 * i + 3) : ℚ) : ℝ)
          ((rng (13 * i + 4) : ℚ) : ℝ) *
          Real.cos (((rng (13 * i + 5) : ℚ) : ℝ) * Real.pi * 2)) ^ 2 +
        (pileRadius ((rng (13 * i + 3) : ℚ) : ℝ)
          ((rng (13 * i + 4) : ℚ) : ℝ) *
          Real.sin (((rng (13 * i + 5) : ℚ) : ℝ) * Real.pi * 2)) ^ 2 =
        (pileRadius ((rng (13 * i + 3) : ℚ) : ℝ)
          ((rng (13 * i + 4) : ℚ) : ℝ)) ^ 2 := by
      nlinarith [hangle]
    rw [hxz, Real.sqrt_sq hpr0]
    exact hpr1

/-- Witness for `tree_position_bounds` on the sphere class, all-zero draws,
index 0. -/
theorem tree_position_bounds_witness :
    ValidRng (fun _ => 0) ∧
    ((mkParticle .sphere (fun _ => 0) 0).treePosition.y =
       -13 / 2 + hNormal ((0 : ℚ) : ℝ) * 13 + 1 ∧
     -5.5 ≤ (mkParticle .sphere (fun _ => 0) 0).treePosition.y ∧
     (mkParticle .sphere (fun _ => 0) 0).treePosition.y ≤ 7.5 ∧
     Real.sqrt ((mkParticle .sphere (fun _ => 0) 0).treePosition.x ^ 2 +
         (mkParticle .sphere (fun _ => 0) 0).treePosition.z ^ 2) ≤
       (1 - hNormal ((0 : ℚ) : ℝ)) * 5.5) :=
  ⟨fun _ => by norm_num,
   tree_position_bounds .sphere (fun _ => 0) 0 (fun _ => by norm_num)⟩

end Christmastime
